import Mathlib

/-!
Verification of the spritegen CLI (src/tooling/spritegen/main.py).

The Python source is shallowly embedded: JSON dictionaries become structures
with `Option` fields (a `none` field models an absent JSON key), the sprite
directory tree becomes association lists keyed by UUID / destination path,
Python truthiness on strings (`None` and `""` are falsy) is modelled by
`truthyStr`, and `datetime.now()` is passed in as an explicit `now` string.
A command that can raise an uncaught Python exception returns `Option`
(`none` = uncaught exception); handled errors return exit code 1 with the
state unchanged, mirroring the `return 1` paths of the source.
-/

namespace Spritegen

/-- Python truthiness of an optional string: `None` and `""` are falsy. -/
def truthyStr : Option String → Bool
  | none => false
  | some s => s ≠ ""

/-- Python `a or b` on optional strings: `a` when truthy, else `b`. -/
def pyOrStr (a b : Option String) : Option String :=
  if truthyStr a then a else b

/-- Association-list lookup (models a directory / JSON-object key lookup). -/
def alookup {κ α : Type} [DecidableEq κ] (k : κ) : List (κ × α) → Option α
  | [] => none
  | (k2, v) :: rest => if k2 = k then some v else alookup k rest

/-- Association-list upsert (models writing a file / JSON key, overwriting). -/
def ainsert {κ α : Type} [DecidableEq κ] (k : κ) (v : α) (l : List (κ × α)) :
    List (κ × α) :=
  (k, v) :: l.filter (fun p => p.1 ≠ k)

/-- Association-list removal (models `shutil.rmtree` / `shutil.move` source). -/
def aerase {κ α : Type} [DecidableEq κ] (k : κ) (l : List (κ × α)) :
    List (κ × α) :=
  l.filter (fun p => p.1 ≠ k)

theorem alookup_ainsert {κ α : Type} [DecidableEq κ] (k : κ) (v : α)
    (l : List (κ × α)) : alookup k (ainsert k v l) = some v := by
  simp [alookup, ainsert]

theorem alookup_aerase {κ α : Type} [DecidableEq κ] (k : κ)
    (l : List (κ × α)) : alookup k (aerase k l) = none := by
  induction l with
  | nil => rfl
  | cons p rest ih =>
    by_cases h : p.1 = k
    · simp [aerase, h] at ih ⊢
      simpa [aerase] using ih
    · simpa [aerase, alookup, h] using ih

/-! ### Configuration constants (main.py lines 37-89) -/

/-- `DEFAULT_STYLE_PROMPT` (main.py line 38). -/
def DEFAULT_STYLE_PROMPT : String :=
  "Retro video game pixel art sprite (NOT digital illustration), black 1px outlines, light source from upper-left (highlights on upper-left edges, shadows on lower-right), medium saturation colors (vibrant but earthy, not neon), crisp pixelated edges, no anti-aliasing, no smooth gradients"

/-- `DEFAULT_AESTHETIC` (main.py line 40). -/
def DEFAULT_AESTHETIC : String :=
  "Mythic Greek world with weathered, lived-in feel, mix of human, divine, and monstrous"

/-- One god palette record (values of `GOD_PALETTES`, main.py lines 60-89). -/
structure Palette where
  primary : String
  secondary : String
  accent : String
  dark : String
  description : String
  deriving DecidableEq, Repr

/-- `GOD_PALETTES` (main.py lines 60-89), as an association list in source
order. -/
def GOD_PALETTES : List (String × Palette) :=
  [ ("zeus",
     { primary := "#FFD700", secondary := "#00BFFF", accent := "#FFFFFF",
       dark := "#1a1a2e",
       description := "gold, electric blue, white, dark storm colors" }),
    ("poseidon",
     { primary := "#1a3a5c", secondary := "#000000", accent := "#FFFFFF",
       dark := "#0a1520",
       description := "dark blue, black, white foam colors" }),
    ("ares",
     { primary := "#8B4513", secondary := "#DC143C", accent := "#708090",
       dark := "#2a1a0a",
       description := "brown, crimson, steel gray colors" }),
    ("demeter",
     { primary := "#90EE90", secondary := "#87CEEB", accent := "#F0E68C",
       dark := "#1a2a1a",
       description := "gentle green, frost blue, gentle yellow colors" }) ]

/-- A persisted style-guide document (JSON object; every key may be absent).
Matches the shape read by `load_style_guide` / written by `save_style_guide`. -/
structure StyleGuide where
  base_style : Option String
  aesthetic : Option String
  palettes : Option (List (String × Palette))
  deriving DecidableEq, Repr

/-! ### Prompt composition (`build_prompt`, main.py lines 185-217) -/

/-- The sheet-layout clause emitted when `frames > 1` (main.py line 202). -/
def sheetClause (size frames : Nat) : String :=
  "sprite sheet with " ++ Nat.repr frames ++
    " frames arranged horizontally, total image size " ++
    Nat.repr (size * frames) ++ "x" ++ Nat.repr size ++
    " pixels, each frame " ++ Nat.repr size ++ "x" ++ Nat.repr size ++
    " pixels"

/-- The single-sprite clause emitted when `frames <= 1` (main.py line 204). -/
def singleClause (size : Nat) : String :=
  "single sprite, " ++ Nat.repr size ++ "x" ++ Nat.repr size ++ " pixels"

/-- `build_prompt` (main.py lines 185-217).  `category` is accepted but, as
in the source, never used.  `style_guide.get(key, default)` becomes
`Option.getD`; the `if style_guide else DEFAULT` guard becomes a match on
`Option StyleGuide`. -/
def build_prompt (base_prompt : String) (category : String) (size : Nat)
    (frames : Nat) (god : Option String) (style_guide : Option StyleGuide) :
    String :=
  let style := match style_guide with
    | some sg => sg.base_style.getD DEFAULT_STYLE_PROMPT
    | none => DEFAULT_STYLE_PROMPT
  let aesthetic := match style_guide with
    | some sg => sg.aesthetic.getD DEFAULT_AESTHETIC
    | none => DEFAULT_AESTHETIC
  let parts := [style]
  let parts := if 1 < frames then parts ++ [sheetClause size frames]
    else parts ++ [singleClause size]
  let parts := parts ++ [aesthetic]
  let parts := match god with
    | none => parts
    | some g =>
      if g = "" then parts
      else match alookup g GOD_PALETTES with
        | none => parts
        | some palette =>
          parts ++ ["using " ++ palette.description ++ " color palette"]
  let parts := parts ++ [base_prompt]
  String.intercalate ", " parts

/-- The base-style text `build_prompt` selects for a given style guide. -/
def styleText (style_guide : Option StyleGuide) : String :=
  match style_guide with
  | some sg => sg.base_style.getD DEFAULT_STYLE_PROMPT
  | none => DEFAULT_STYLE_PROMPT

/-- The aesthetic text `build_prompt` selects for a given style guide. -/
def aestheticText (style_guide : Option StyleGuide) : String :=
  match style_guide with
  | some sg => sg.aesthetic.getD DEFAULT_AESTHETIC
  | none => DEFAULT_AESTHETIC

/-- The (possibly empty) god-palette clause list appended by `build_prompt`:
nonempty exactly when `god` is truthy and a key of `GOD_PALETTES`. -/
def godClauseList (god : Option String) : List String :=
  match god with
  | none => []
  | some g =>
    if g = "" then []
    else match alookup g GOD_PALETTES with
      | none => []
      | some palette => ["using " ++ palette.description ++ " color palette"]

/-- `needle` occurs contiguously inside `hay`. -/
def containsStr (hay needle : String) : Prop :=
  ∃ pre suf, hay = pre ++ needle ++ suf

/-! ### Streamed generation responses (`cmd_generate`, main.py lines 313-344)

The Gemini SDK objects are embedded structurally: a chunk has an optional
list of candidates, a candidate an optional content, a content an optional
list of parts; a part has an optional `inline_data` (whose `data` is an
optional byte string, modelled `List Nat`) and an optional `text`.  The
streamed response is a list of events: either a chunk arrives or the
iterator raises (a transport/provider error carrying a message). -/

/-- `part.inline_data`: object with an optional `data` byte string. -/
structure InlineData where
  data : Option (List Nat)
  deriving DecidableEq, Repr

/-- One response part. -/
structure RespPart where
  inline_data : Option InlineData
  text : Option String
  deriving DecidableEq, Repr

/-- `candidate.content`: optional list of parts. -/
structure RespContent where
  parts : Option (List RespPart)
  deriving DecidableEq, Repr

/-- One response candidate. -/
structure Candidate where
  content : Option RespContent
  deriving DecidableEq, Repr

/-- One streamed chunk. -/
structure Chunk where
  candidates : Option (List Candidate)
  deriving DecidableEq, Repr

/-- One event of the streamed response: a chunk, or the iterator raising a
transport/provider error with a message. -/
inductive StreamEvent where
  | chunk (c : Chunk)
  | failure (msg : String)
  deriving DecidableEq, Repr

/-- Loop state of `cmd_generate`'s streaming loop: the bytes currently in
`output_path` (written whenever an image-bearing part is seen, main.py
lines 330-333) and the `API note:` diagnostic lines printed so far
(main.py line 336). -/
structure StreamState where
  written : Option (List Nat)
  notes : List String
  deriving DecidableEq, Repr

/-- The payload the loop's image branch extracts from a part:
`part.inline_data and part.inline_data.data` (main.py line 329), with
Python truthiness (`None` / empty bytes are falsy). -/
def partPayload (p : RespPart) : Option (List Nat) :=
  match p.inline_data with
  | none => none
  | some idata =>
    match idata.data with
    | none => none
    | some d => if d = [] then none else some d

/-- Processing of one chunk by the loop body (main.py lines 321-336):
`none` models an uncaught `IndexError` from `candidates[0]` / `parts[0]`
on an empty list (the `continue` guards only test for `None`). -/
def processChunk (st : StreamState) (c : Chunk) : Option StreamState :=
  match c.candidates with
  | none => some st
  | some [] => none
  | some (cand :: _) =>
    match cand.content with
    | none => some st
    | some content =>
      match content.parts with
      | none => some st
      | some [] => none
      | some (p :: _) =>
        match partPayload p with
        | some d => some { written := some d, notes := st.notes }
        | none =>
          match p.text with
          | none => some st
          | some t => if t = "" then some st
            else some { st with notes := st.notes ++ [t] }

/-- Outcome of `cmd_generate`'s try-block (main.py lines 313-344):
`ok` = loop finished with `image_saved` (the saved bytes and the printed
notes), `noImage` = loop finished without an image (`return 1`),
`failed` = an exception was caught (`return 1` with the message). -/
inductive GenOutcome where
  | ok (image : List Nat) (notes : List String)
  | noImage (notes : List String)
  | failed (msg : String)
  deriving DecidableEq, Repr

/-- The message of Python's `IndexError` on an empty list. -/
def indexErrorMsg : String := "list index out of range"

/-- Consume the streamed response (main.py lines 314-344): iterate chunks,
catching any raised exception as `failed`; once the stream is exhausted,
succeed with the bytes last written to `output_path` or fail with
`noImage`. -/
def runStream : List StreamEvent → StreamState → GenOutcome
  | [], st =>
    match st.written with
    | some d => GenOutcome.ok d st.notes
    | none => GenOutcome.noImage st.notes
  | StreamEvent.failure m :: _, _ => GenOutcome.failed m
  | StreamEvent.chunk c :: rest, st =>
    match processChunk st c with
    | none => GenOutcome.failed indexErrorMsg
    | some st2 => runStream rest st2

/-- Exit code of `cmd_generate`'s try-block: `return 1` on `noImage`
(main.py line 340) and on a caught exception (line 344), else the
generation proceeds (exit 0 path). -/
def genExitCode : GenOutcome → Nat
  | GenOutcome.ok _ _ => 0
  | GenOutcome.noImage _ => 1
  | GenOutcome.failed _ => 1

/-- A chunk the loop body processes without raising: its `candidates` and
`parts` lists, when present, are nonempty. -/
def chunkWf (c : Chunk) : Bool :=
  match c.candidates with
  | none => true
  | some [] => false
  | some (cand :: _) =>
    match cand.content with
    | none => true
    | some content =>
      match content.parts with
      | none => true
      | some [] => false
      | some (_ :: _) => true

/-- The image payload the loop sees in a chunk: the payload of the first
part of the first candidate, when the guards pass (main.py line 328 reads
only `parts[0]`). -/
def chunkFirstPartPayload (c : Chunk) : Option (List Nat) :=
  match c.candidates with
  | none => none
  | some [] => none
  | some (cand :: _) =>
    match cand.content with
    | none => none
    | some content =>
      match content.parts with
      | none => none
      | some [] => none
      | some (p :: _) => partPayload p

/-- The diagnostic note the loop prints for a chunk (only when the image
branch did not fire and `parts[0].text` is truthy, main.py lines 335-336). -/
def chunkNote (c : Chunk) : Option String :=
  match c.candidates with
  | none => none
  | some [] => none
  | some (cand :: _) =>
    match cand.content with
    | none => none
    | some content =>
      match content.parts with
      | none => none
      | some [] => none
      | some (p :: _) =>
        match partPayload p with
        | some _ => none
        | none =>
          match p.text with
          | none => none
          | some t => if t = "" then none else some t

/-- The payload of the last image-bearing chunk of a list (what ends up in
`output_path` after the loop, since each image-bearing chunk overwrites). -/
def lastPayload : List Chunk → Option (List Nat)
  | [] => none
  | c :: rest =>
    match lastPayload rest with
    | some d => some d
    | none => chunkFirstPartPayload c

/-- All diagnostic notes printed for a list of chunks, in order. -/
def streamNotes (cs : List Chunk) : List String :=
  cs.filterMap chunkNote

/-- Modelled from the spec: "the FIRST chunk part carrying inline binary
payload is treated as the result image and written out".  Scans the
chunks in order and returns the payload of the first part (across all
candidates' parts, in order) that carries one. -/
def spec_firstInlinePayload : List Chunk → Option (List Nat)
  | [] => none
  | c :: rest =>
    let inChunk :=
      match c.candidates with
      | none => none
      | some cands =>
        (cands.flatMap (fun cand =>
          match cand.content with
          | none => []
          | some content => content.parts.getD [])).findSome? partPayload
    match inChunk with
    | some d => some d
    | none => spec_firstInlinePayload rest

/-! ### Asset lifecycle state (directory tree + manifest)

`staging/<uuid>/` and `alternatives/<uuid>/` directories hold a
`sprite.png` and a `metadata.json`; `used/<category>[/<subcategory>]/`
holds `<name>.png` and `<name>.meta.json` pairs.  Empty directories
created by `ensure_directories` / `mkdir` carry no information the
commands read, so the model keeps only the files. -/

/-- A metadata record (the JSON written at main.py lines 347-359; every
key may be absent when the record is hand-edited, so all fields are
`Option` and reads use `Option.getD` for Python's `dict.get`). -/
structure Meta where
  id : Option String
  created_at : Option String
  prompt : Option String
  full_prompt : Option String
  god_palette : Option String
  category : Option String
  subcategory : Option String
  name : Option String
  size : Option Nat
  frames : Option Nat
  status : Option String
  approved_at : Option String
  rejected_at : Option String
  rejection_reason : Option (Option String)
  deriving DecidableEq, Repr

/-- A `staging/<uuid>/` (or `alternatives/<uuid>/`) directory: its
`sprite.png` bytes and its `metadata.json`, either possibly missing. -/
structure StagingEntry where
  sprite : Option (List Nat)
  metadata : Option Meta
  deriving DecidableEq, Repr

/-- The pair of files `used/.../<name>.png` + `<name>.meta.json`. -/
structure UsedAsset where
  image : List Nat
  meta : Meta
  deriving DecidableEq, Repr

/-- One manifest entry (values of the `assets` mapping). -/
structure ManifestEntry where
  path : String
  frames : Nat
  size : Nat
  deriving DecidableEq, Repr

/-- The manifest document `{"version": .., "assets": {..}}`. -/
structure Manifest where
  version : Nat
  assets : List (String × ManifestEntry)
  deriving DecidableEq, Repr

/-- Destination location in the `used` tree: category, optional
subcategory, name. -/
abbrev UsedKey := String × Option String × String

/-- The observable file-system state the commands read and write.
`manifest` and `style_guide` are `none` when the corresponding JSON file
does not exist. -/
structure FS where
  staging : List (String × StagingEntry)
  alternatives : List (String × StagingEntry)
  used : List (UsedKey × UsedAsset)
  manifest : Option Manifest
  style_guide : Option StyleGuide
  deriving DecidableEq, Repr

/-- `load_manifest` (main.py lines 162-167): default document when the
file is missing. -/
def load_manifest (st : FS) : Manifest :=
  st.manifest.getD { version := 1, assets := [] }

/-- The manifest path string for a used asset:
`str(dest_sprite.relative_to(SPRITES_ROOT.parent.parent))`, i.e.
`assets/sprites/used/<category>[/<subcategory>]/<name>.png`. -/
def usedRelPath (category : String) (subcategory : Option String)
    (name : String) : String :=
  "assets/sprites/used/" ++ category ++
    (match subcategory with
     | some s => "/" ++ s
     | none => "") ++ "/" ++ name ++ ".png"

/-- The asset-key expression at main.py line 544 (`cmd_approve`):
`f"{category}.{subcategory}.{name}" if subcategory else
f"{category}.{name}"` on the resolved values. -/
def assetKey_approve (category : String) (subcategory : Option String)
    (name : String) : String :=
  if truthyStr subcategory then
    category ++ "." ++ subcategory.getD "" ++ "." ++ name
  else category ++ "." ++ name

/-- The asset-key expression at main.py line 367 (`cmd_generate`, direct
output): textually the same conditional expression. -/
def assetKey_generate (category : String) (subcategory : Option String)
    (name : String) : String :=
  if truthyStr subcategory then
    category ++ "." ++ subcategory.getD "" ++ "." ++ name
  else category ++ "." ++ name

/-- The asset-key expression at main.py line 612 (`cmd_apply`, metadata
branch): textually the same conditional expression. -/
def assetKey_apply (category : String) (subcategory : Option String)
    (name : String) : String :=
  if truthyStr subcategory then
    category ++ "." ++ subcategory.getD "" ++ "." ++ name
  else category ++ "." ++ name

/-- `cmd_approve` (main.py lines 494-557).  Returns `none` for an uncaught
exception (`shutil.copy2` on a missing `sprite.png`); otherwise the exit
code and resulting state.  `now` stands for `datetime.now().isoformat()`. -/
def cmd_approve (st : FS) (now : String) (u : String)
    (argCategory argSubcategory argName : Option String) :
    Option (Nat × FS) :=
  match alookup u st.staging with
  | none => some (1, st)
  | some entry =>
    match entry.metadata with
    | none => some (1, st)
    | some meta =>
      let category := pyOrStr argCategory meta.category
      let subcategory := pyOrStr argSubcategory meta.subcategory
      let name := pyOrStr argName meta.name
      if truthyStr category = false || truthyStr name = false then
        some (1, st)
      else
        match entry.sprite with
        | none => none
        | some img =>
          let cat := category.getD ""
          let nm := name.getD ""
          let subU : Option String :=
            if truthyStr subcategory then subcategory else none
          let meta2 :=
            { meta with status := some "used", approved_at := some now }
          let key := assetKey_approve cat subcategory nm
          let mEntry : ManifestEntry :=
            { path := usedRelPath cat subU nm,
              frames := meta.frames.getD 1, size := meta.size.getD 64 }
          let manifest := load_manifest st
          let manifest2 :=
            { manifest with assets := ainsert key mEntry manifest.assets }
          some (0,
            { st with
              used := ainsert (cat, subU, nm) { image := img, meta := meta2 }
                st.used,
              manifest := some manifest2,
              staging := aerase u st.staging })

/-- `cmd_reject` (main.py lines 560-589).  `shutil.move` into an already
existing `alternatives/<uuid>/` directory nests the source inside it
rather than replacing it; that case is left unmodelled (`none`).
Otherwise the exit code and resulting state. -/
def cmd_reject (st : FS) (now : String) (u : String)
    (reason : Option String) : Option (Nat × FS) :=
  match alookup u st.staging with
  | none => some (1, st)
  | some entry =>
    match alookup u st.alternatives with
    | some _ => none
    | none =>
      let entry2 :=
        match entry.metadata with
        | none => entry
        | some meta =>
          let meta2 : Meta :=
            { meta with
              status := some "rejected",
              rejection_reason := some reason,
              rejected_at := some now }
          { entry with metadata := some meta2 }
      some (0,
        { st with
          staging := aerase u st.staging,
          alternatives := ainsert u entry2 st.alternatives })

/-- `cmd_init` (main.py lines 681-701): seed the style guide and manifest
only when their files are absent.  The seeded style guide (lines 687-690)
has exactly the keys `base_style` and `palettes`. -/
def cmd_init (st : FS) : Nat × FS :=
  let st :=
    match st.style_guide with
    | some _ => st
    | none =>
      let seeded : StyleGuide :=
        { base_style := some DEFAULT_STYLE_PROMPT,
          aesthetic := none,
          palettes := some GOD_PALETTES }
      { st with style_guide := some seeded }
  let st :=
    match st.manifest with
    | some _ => st
    | none => { st with manifest := some { version := 1, assets := [] } }
  (0, st)

/-! ### Batch processing (`cmd_batch`, main.py lines 382-418) -/

/-- One item of a batch manifest file (all keys optional, read with
`dict.get` defaults at main.py lines 403-409). -/
structure BatchItem where
  name : Option String
  category : Option String
  subcategory : Option String
  prompt : Option String
  god : Option String
  frames : Option Nat
  size : Option Nat
  deriving DecidableEq, Repr

/-- A parsed batch manifest document (`items` key optional, line 392). -/
structure BatchManifest where
  items : Option (List BatchItem)
  deriving DecidableEq, Repr

/-- `cmd_batch` (main.py lines 382-418).  `manifestFile` is the parsed
file (`none` = file does not exist, the line-385 `return 1` path);
`gen` gives the exit code `cmd_generate` returns for the i-th item (the
generation pipeline with its external API call, abstracted as an oracle).
Returns the command's exit code together with the `Warning: Failed to
generate ...` lines printed (line 415), one per failing item, carrying
`item.get('name')`. -/
def cmd_batch (manifestFile : Option BatchManifest)
    (gen : Nat → BatchItem → Nat) : Nat × List String :=
  match manifestFile with
  | none => (1, [])
  | some bm =>
    let items := bm.items.getD []
    let warnings :=
      (items.enumFrom 1).filterMap (fun p =>
        if gen p.1 p.2 ≠ 0 then
          some ("Warning: Failed to generate " ++
            (match p.2.name with
             | some s => s
             | none => "None"))
        else none)
    (0, warnings)

/-! ### Concrete fixtures and stream helpers -/

/-- A chunk with one candidate whose single part carries image bytes. -/
def mkImageChunk (d : List Nat) : Chunk :=
  { candidates := some
      [{ content := some
          { parts := some [{ inline_data := some { data := some d },
                             text := none }] } }] }

/-- A chunk with one candidate whose single part carries only text. -/
def mkTextChunk (t : String) : Chunk :=
  { candidates := some
      [{ content := some
          { parts := some [{ inline_data := none, text := some t }] } }] }

/-- Finish the streaming loop: succeed with the bytes in `output_path`
when `image_saved`, else the `noImage` failure (main.py lines 338-340). -/
def finishStream (w : Option (List Nat)) (ns : List String) : GenOutcome :=
  match w with
  | some d => GenOutcome.ok d ns
  | none => GenOutcome.noImage ns

/-- Left-biased choice on optional payloads. -/
def opOr (a b : Option (List Nat)) : Option (List Nat) :=
  match a with
  | some d => some d
  | none => b

theorem processChunk_wf_eq (st : StreamState) (c : Chunk)
    (h : chunkWf c = true) :
    processChunk st c = some
      { written := opOr (chunkFirstPartPayload c) st.written,
        notes := st.notes ++ (chunkNote c).toList } := by
  obtain ⟨cands⟩ := c
  cases cands with
  | none => simp [processChunk, chunkFirstPartPayload, chunkNote, opOr]
  | some l =>
    cases l with
    | nil => simp [chunkWf] at h
    | cons cand cs =>
      obtain ⟨content⟩ := cand
      cases content with
      | none => simp [processChunk, chunkFirstPartPayload, chunkNote, opOr]
      | some rc =>
        obtain ⟨parts⟩ := rc
        cases parts with
        | none => simp [processChunk, chunkFirstPartPayload, chunkNote, opOr]
        | some ps =>
          cases ps with
          | nil => simp [chunkWf] at h
          | cons p rest =>
            simp only [processChunk, chunkFirstPartPayload, chunkNote]
            cases hp : partPayload p with
            | some d => simp [hp, opOr]
            | none =>
              cases ht : p.text with
              | none => simp [hp, ht, opOr]
              | some t =>
                by_cases h0 : t = "" <;> simp [hp, ht, h0, opOr]

theorem streamNotes_cons (c : Chunk) (rest : List Chunk) :
    streamNotes (c :: rest) = (chunkNote c).toList ++ streamNotes rest := by
  cases h : chunkNote c <;> simp [streamNotes, List.filterMap_cons, h]

theorem opOr_lastPayload_cons (c : Chunk) (rest : List Chunk)
    (w : Option (List Nat)) :
    opOr (lastPayload (c :: rest)) w =
      opOr (lastPayload rest) (opOr (chunkFirstPartPayload c) w) := by
  cases h1 : lastPayload rest <;> cases h2 : chunkFirstPartPayload c <;>
    simp [lastPayload, opOr, h1, h2]

/-- The streaming loop on well-formed chunks: the resulting outcome is
determined by the last image payload (overwriting semantics) and the
accumulated diagnostic notes. -/
theorem runStream_chunks (cs : List Chunk) (st : StreamState)
    (h : ∀ c ∈ cs, chunkWf c = true) :
    runStream (List.map StreamEvent.chunk cs) st =
      finishStream (opOr (lastPayload cs) st.written)
        (st.notes ++ streamNotes cs) := by
  induction cs generalizing st with
  | nil =>
    cases hw : st.written <;>
      simp [runStream, finishStream, opOr, streamNotes, lastPayload, hw]
  | cons c rest ih =>
    have hc := h c (by simp)
    have hrest : ∀ c2 ∈ rest, chunkWf c2 = true :=
      fun c2 hc2 => h c2 (by simp [hc2])
    simp only [List.map, runStream, processChunk_wf_eq st c hc]
    rw [ih _ hrest, opOr_lastPayload_cons, streamNotes_cons]
    simp [List.append_assoc]

/-- A stream whose well-formed chunks are followed by a raised error is
reported as the caught failure, whatever comes later. -/
theorem runStream_failure (cs : List Chunk) (m : String)
    (rest : List StreamEvent) (st : StreamState)
    (h : ∀ c ∈ cs, chunkWf c = true) :
    runStream (List.map StreamEvent.chunk cs ++ StreamEvent.failure m :: rest)
      st = GenOutcome.failed m := by
  induction cs generalizing st with
  | nil => simp [runStream]
  | cons c rest2 ih =>
    have hc := h c (by simp)
    have hrest : ∀ c2 ∈ rest2, chunkWf c2 = true :=
      fun c2 hc2 => h c2 (by simp [hc2])
    simp only [List.map, List.cons_append, runStream,
      processChunk_wf_eq st c hc]
    exact ih _ hrest

theorem lastPayload_eq_none_iff (cs : List Chunk) :
    lastPayload cs = none ↔ ∀ c ∈ cs, chunkFirstPartPayload c = none := by
  induction cs with
  | nil => simp [lastPayload]
  | cons c rest ih =>
    simp only [lastPayload, List.mem_cons]
    cases h1 : lastPayload rest with
    | some d =>
      constructor
      · intro hx; cases hx
      · intro hall
        have h2 : lastPayload rest = none :=
          ih.mpr (fun c2 hc2 => hall c2 (Or.inr hc2))
        rw [h2] at h1; cases h1
    | none =>
      constructor
      · intro hx
        intro c2 hc2
        rcases hc2 with hc2 | hc2
        · rw [hc2]; exact hx
        · exact (ih.mp h1) c2 hc2
      · intro hall
        exact hall c (Or.inl rfl)

/-! ### Claim C1 -/

/-- C1 counterexample: the claim "the first chunk part carrying an inline
binary payload is the one written out as the result image; image payloads
in subsequent chunks are ignored" is false.  On a stream of two
image-bearing chunks with payloads `[1]` then `[2]`, the first inline
payload is `[1]`, but the loop overwrites `output_path` on every
image-bearing chunk, so the bytes written out are `[2]`. -/
theorem C1_first_chunk_claim_false :
    spec_firstInlinePayload [mkImageChunk [1], mkImageChunk [2]] = some [1]
    ∧ runStream
        (List.map StreamEvent.chunk [mkImageChunk [1], mkImageChunk [2]])
        { written := none, notes := [] } = GenOutcome.ok [2] []
    ∧ GenOutcome.ok [2] ([] : List String) ≠ GenOutcome.ok [1] [] := by
  refine ⟨by decide, by decide, by decide⟩

/-- C1 (amended): for every streamed generation response of well-formed
chunks, the chunk whose first part carries an inline binary payload
overwrites the result file each time, so the LAST such chunk's payload is
the one left as the result image; text-only parts (before or after) are
surfaced as diagnostic notes in order, never treated as an error. -/
theorem C1_last_image_chunk_wins (cs : List Chunk)
    (h : ∀ c ∈ cs, chunkWf c = true) :
    runStream (List.map StreamEvent.chunk cs)
      { written := none, notes := [] } =
      finishStream (lastPayload cs) (streamNotes cs) := by
  rw [runStream_chunks cs _ h]
  cases hl : lastPayload cs <;> simp [finishStream, opOr, hl]

/-- Witness for C1: one image-bearing chunk with payload `[3]` followed by
a text-only chunk; the image bytes are returned and the text is a
diagnostic note, not an error. -/
theorem C1_last_image_chunk_wins_witness :
    (∀ c ∈ [mkImageChunk [3], mkTextChunk "note"], chunkWf c = true)
    ∧ runStream
        (List.map StreamEvent.chunk [mkImageChunk [3], mkTextChunk "note"])
        { written := none, notes := [] } = GenOutcome.ok [3] ["note"] := by
  refine ⟨by decide, ?_⟩
  have h := C1_last_image_chunk_wins [mkImageChunk [3], mkTextChunk "note"]
    (by decide)
  exact h.trans (by decide)

/-! ### Claim C5 -/

/-- A chunk with one candidate whose parts are a text part followed by an
image-bearing part: it carries inline image data, but not in its first
part. -/
def mkTextThenImageChunk : Chunk :=
  { candidates := some
      [{ content := some
          { parts := some
              [{ inline_data := none, text := some "note" },
               { inline_data := some { data := some [7] },
                 text := none }] } }] }

/-- C5 counterexample: the claim "generate fails with a NoImageProduced
error if and only if no chunk of the streamed response carries inline
image data" is false.  A stream of one chunk whose parts are a text part
followed by an image-bearing part carries inline image data (payload
`[7]`), yet the loop reads only `parts[0]` and therefore ends in the
no-image failure — so failure occurs although some chunk carries image
data. -/
theorem C5_iff_claim_false :
    spec_firstInlinePayload [mkTextThenImageChunk] = some [7]
    ∧ runStream (List.map StreamEvent.chunk [mkTextThenImageChunk])
        { written := none, notes := [] } = GenOutcome.noImage ["note"]
    ∧ (some [7] : Option (List Nat)) ≠ none := by
  refine ⟨by decide, by decide, by decide⟩

/-- C5 (amended): on an error-free stream of well-formed chunks the call
fails with the no-image error exactly when no chunk's FIRST part (of its
first candidate) carries inline image data — the loop reads only
`parts[0]`, so payloads in later parts of a chunk are invisible — with
exit code 1; a transport/provider error raised at any point of the
stream is caught and reported as a generation failure carrying the
underlying message, with exit code 1 and no retry (the remainder of the
stream is never consumed). -/
theorem C5_failure_modes (cs : List Chunk) (m : String)
    (rest : List StreamEvent)
    (h : ∀ c ∈ cs, chunkWf c = true) :
    ((runStream (List.map StreamEvent.chunk cs)
        { written := none, notes := [] } =
        GenOutcome.noImage (streamNotes cs)) ↔
      (∀ c ∈ cs, chunkFirstPartPayload c = none))
    ∧ genExitCode (GenOutcome.noImage (streamNotes cs)) = 1
    ∧ runStream
        (List.map StreamEvent.chunk cs ++ StreamEvent.failure m :: rest)
        { written := none, notes := [] } = GenOutcome.failed m
    ∧ genExitCode (GenOutcome.failed m) = 1 := by
  refine ⟨?_, rfl, runStream_failure cs m rest _ h, rfl⟩
  rw [runStream_chunks cs _ h, ← lastPayload_eq_none_iff]
  cases hl : lastPayload cs <;> simp [finishStream, opOr, hl]

/-- Witness for C5: a single text-only chunk (no image data) and a
transport error message. -/
theorem C5_failure_modes_witness :
    (∀ c ∈ [mkTextChunk "thinking"], chunkWf c = true)
    ∧ (((runStream (List.map StreamEvent.chunk [mkTextChunk "thinking"])
          { written := none, notes := [] } =
          GenOutcome.noImage (streamNotes [mkTextChunk "thinking"])) ↔
        (∀ c ∈ [mkTextChunk "thinking"], chunkFirstPartPayload c = none))
       ∧ genExitCode (GenOutcome.noImage (streamNotes [mkTextChunk "thinking"])) = 1
       ∧ runStream
           (List.map StreamEvent.chunk [mkTextChunk "thinking"] ++
             StreamEvent.failure "connection reset" :: [])
           { written := none, notes := [] } =
           GenOutcome.failed "connection reset"
       ∧ genExitCode (GenOutcome.failed "connection reset") = 1) :=
  ⟨by decide,
   C5_failure_modes [mkTextChunk "thinking"] "connection reset" [] (by decide)⟩

/-! ### Claim C3 -/

/-- C3: manifest key derivation is deterministic and identical at the
three call sites (direct generate, approve, apply); with a truthy
subcategory the key is `category.subcategory.name`, without one it is
`category.name`; in particular `("player", None, "idle")` derives
`player.idle` and `("enemy", "minor", "slime")` derives
`enemy.minor.slime`. -/
theorem C3_asset_key_derivation :
    (∀ (category name : String) (subcategory : Option String),
      assetKey_generate category subcategory name =
        assetKey_approve category subcategory name
      ∧ assetKey_apply category subcategory name =
        assetKey_approve category subcategory name)
    ∧ (∀ (category name sub : String), sub ≠ "" →
        assetKey_approve category (some sub) name =
          category ++ "." ++ sub ++ "." ++ name)
    ∧ (∀ (category name : String),
        assetKey_approve category none name = category ++ "." ++ name)
    ∧ assetKey_approve "player" none "idle" = "player.idle"
    ∧ assetKey_approve "enemy" (some "minor") "slime" =
        "enemy.minor.slime" := by
  refine ⟨fun c n sub => ⟨rfl, rfl⟩, ?_, ?_, by decide, by decide⟩
  · intro c n sub hs
    simp [assetKey_approve, truthyStr, hs]
  · intro c n
    simp [assetKey_approve, truthyStr]

/-- Witness for C3: the subcategory example evaluated concretely. -/
theorem C3_asset_key_derivation_witness :
    ("minor" : String) ≠ ""
    ∧ assetKey_approve "enemy" (some "minor") "slime" =
        "enemy" ++ "." ++ "minor" ++ "." ++ "slime" :=
  ⟨by decide, C3_asset_key_derivation.2.1 "enemy" "slime" "minor" (by decide)⟩

/-! ### Claim C4 -/

/-- C4: for positive size and frame count the composed prompt is the
", "-join of, in order: style text, size clause, aesthetic text, the
optional god-palette clause, and the caller's free-text prompt verbatim
last.  With more than one frame the size clause contains the total
dimensions `(s*f)xs` and the per-frame dimensions `sxs`; with one frame
the clause is the single-sprite clause `single sprite, sxs pixels`. -/
theorem C4_prompt_composition (bp cat : String) (s f : Nat)
    (god : Option String) (sg : Option StyleGuide)
    (hs : 0 < s) (hf : 0 < f) :
    build_prompt bp cat s f god sg =
      String.intercalate ", "
        ([styleText sg, if 1 < f then sheetClause s f else singleClause s,
          aestheticText sg] ++ godClauseList god ++ [bp])
    ∧ (1 < f →
        containsStr (sheetClause s f) (Nat.repr (s * f) ++ "x" ++ Nat.repr s)
        ∧ containsStr (sheetClause s f) (Nat.repr s ++ "x" ++ Nat.repr s))
    ∧ singleClause s =
        "single sprite, " ++ Nat.repr s ++ "x" ++ Nat.repr s ++
          " pixels" := by
  refine ⟨?_, ?_, rfl⟩
  · by_cases hf1 : 1 < f <;>
      cases god with
      | none =>
        simp [build_prompt, styleText, aestheticText, godClauseList, hf1]
      | some g =>
        by_cases hg : g = ""
        · simp [build_prompt, styleText, aestheticText, godClauseList, hf1,
            hg]
        · cases hp : alookup g GOD_PALETTES <;>
            simp [build_prompt, styleText, aestheticText, godClauseList,
              hf1, hg, hp]
  · intro h1
    constructor
    · exact ⟨"sprite sheet with " ++ Nat.repr f ++
          " frames arranged horizontally, total image size ",
        " pixels, each frame " ++ Nat.repr s ++ "x" ++ Nat.repr s ++
          " pixels",
        by simp [sheetClause, String.append_assoc]⟩
    · exact ⟨"sprite sheet with " ++ Nat.repr f ++
          " frames arranged horizontally, total image size " ++
          Nat.repr (s * f) ++ "x" ++ Nat.repr s ++ " pixels, each frame ",
        " pixels",
        by simp [sheetClause, String.append_assoc]⟩

/-- Witness for C4: the spec's example `frames = 4, size = 64`. -/
theorem C4_prompt_composition_witness :
    (0 < 64 ∧ 0 < 4)
    ∧ (build_prompt "hero" "player" 64 4 none none =
        String.intercalate ", "
          ([styleText none, if 1 < 4 then sheetClause 64 4
              else singleClause 64,
            aestheticText none] ++ godClauseList none ++ ["hero"])
      ∧ (1 < 4 →
          containsStr (sheetClause 64 4)
            (Nat.repr (64 * 4) ++ "x" ++ Nat.repr 64)
          ∧ containsStr (sheetClause 64 4)
            (Nat.repr 64 ++ "x" ++ Nat.repr 64))
      ∧ singleClause 64 =
          "single sprite, " ++ Nat.repr 64 ++ "x" ++ Nat.repr 64 ++
            " pixels") :=
  ⟨⟨by decide, by decide⟩,
   C4_prompt_composition "hero" "player" 64 4 none none (by decide)
     (by decide)⟩

/-! ### Claim C9 -/

/-- C9: the god-palette clause of a composed prompt comes from the
built-in `GOD_PALETTES` constant only: two style guides that agree on
`base_style` and `aesthetic` but differ arbitrarily in their `palettes`
mapping yield identical prompts for every input. -/
theorem C9_palettes_do_not_influence_prompt (bp cat : String) (s f : Nat)
    (god : Option String) (sg1 sg2 : StyleGuide)
    (hb : sg1.base_style = sg2.base_style)
    (ha : sg1.aesthetic = sg2.aesthetic) :
    build_prompt bp cat s f god (some sg1) =
      build_prompt bp cat s f god (some sg2) := by
  simp [build_prompt, hb, ha]

/-- A style guide with no persisted palettes. -/
def sgNoPalettes : StyleGuide :=
  { base_style := some "pixel", aesthetic := some "greek",
    palettes := none }

/-- The same style guide but with a zeus palette overridden to different
colors and description. -/
def sgAltPalettes : StyleGuide :=
  { base_style := some "pixel", aesthetic := some "greek",
    palettes := some
      [("zeus",
        { primary := "#000000", secondary := "#111111",
          accent := "#222222", dark := "#333333",
          description := "entirely different colors" })] }

/-- Witness for C9: two guides differing only in `palettes` produce the
same prompt for a zeus-palette generation. -/
theorem C9_palettes_do_not_influence_prompt_witness :
    sgNoPalettes.base_style = sgAltPalettes.base_style
    ∧ sgNoPalettes.aesthetic = sgAltPalettes.aesthetic
    ∧ sgNoPalettes.palettes ≠ sgAltPalettes.palettes
    ∧ build_prompt "hero" "player" 64 1 (some "zeus") (some sgNoPalettes) =
        build_prompt "hero" "player" 64 1 (some "zeus")
          (some sgAltPalettes) :=
  ⟨rfl, rfl, by decide,
   C9_palettes_do_not_influence_prompt "hero" "player" 64 1 (some "zeus")
     sgNoPalettes sgAltPalettes rfl rfl⟩

/-! ### Claim C2 -/

/-- The subcategory used for the destination directory and manifest path:
the resolved subcategory when truthy, else absent (main.py lines
522-525). -/
def approveDest (argSubcategory : Option String) (meta : Meta) :
    Option String :=
  if truthyStr (pyOrStr argSubcategory meta.subcategory) then
    pyOrStr argSubcategory meta.subcategory
  else none

/-- The metadata record written next to an approved asset: status `used`
and the approval timestamp (main.py lines 537-538). -/
def approvedMeta (meta : Meta) (now : String) : Meta :=
  { meta with status := some "used", approved_at := some now }

/-- The metadata record rewritten for a rejected asset: status
`rejected`, the reason stored verbatim, and the rejection timestamp
(main.py lines 580-582). -/
def rejectedMeta (meta : Meta) (now : String) (reason : Option String) :
    Meta :=
  { meta with
    status := some "rejected",
    rejection_reason := some reason,
    rejected_at := some now }

/-- The state `cmd_approve` produces on its success path. -/
def approveResult (st : FS) (now u : String)
    (argSubcategory : Option String) (meta : Meta) (img : List Nat)
    (cat nm : String) : FS :=
  let subcategory := pyOrStr argSubcategory meta.subcategory
  let subU := approveDest argSubcategory meta
  let meta2 := { meta with status := some "used", approved_at := some now }
  let key := assetKey_approve cat subcategory nm
  let mEntry : ManifestEntry :=
    { path := usedRelPath cat subU nm, frames := meta.frames.getD 1,
      size := meta.size.getD 64 }
  let manifest := load_manifest st
  { st with
    used := ainsert (cat, subU, nm) { image := img, meta := meta2 } st.used,
    manifest := some
      { manifest with assets := ainsert key mEntry manifest.assets },
    staging := aerase u st.staging }

theorem cmd_approve_eq_of_resolved (st : FS) (now u : String)
    (argCategory argSubcategory argName : Option String)
    (entry : StagingEntry) (meta : Meta) (img : List Nat) (cat nm : String)
    (h1 : alookup u st.staging = some entry)
    (h2 : entry.metadata = some meta)
    (h3 : entry.sprite = some img)
    (h4 : pyOrStr argCategory meta.category = some cat) (h5 : cat ≠ "")
    (h6 : pyOrStr argName meta.name = some nm) (h7 : nm ≠ "") :
    cmd_approve st now u argCategory argSubcategory argName =
      some (0, approveResult st now u argSubcategory meta img cat nm) := by
  have hc : truthyStr (some cat) = true := by simp [truthyStr, h5]
  have hn : truthyStr (some nm) = true := by simp [truthyStr, h7]
  simp [cmd_approve, h1, h2, h3, h4, h6, hc, hn, approveResult,
    approveDest]

/-- C2: approving a staging UUID whose category and name resolve (from
explicit arguments or stored metadata) removes the staging entry, places
the image at `used/<category>[/<subcategory>]/<name>.png` with a metadata
record of status `used` carrying the approval timestamp, and records the
derived key in the manifest with the asset's frame count and size. -/
theorem C2_approve_transition (st : FS) (now u : String)
    (argCategory argSubcategory argName : Option String)
    (entry : StagingEntry) (meta : Meta) (img : List Nat) (cat nm : String)
    (h1 : alookup u st.staging = some entry)
    (h2 : entry.metadata = some meta)
    (h3 : entry.sprite = some img)
    (h4 : pyOrStr argCategory meta.category = some cat) (h5 : cat ≠ "")
    (h6 : pyOrStr argName meta.name = some nm) (h7 : nm ≠ "") :
    ∃ st2,
      cmd_approve st now u argCategory argSubcategory argName =
        some (0, st2)
      ∧ alookup u st2.staging = none
      ∧ alookup (cat, approveDest argSubcategory meta, nm) st2.used =
          some { image := img, meta := approvedMeta meta now }
      ∧ alookup
          (assetKey_approve cat (pyOrStr argSubcategory meta.subcategory)
            nm)
          (load_manifest st2).assets =
          some { path := usedRelPath cat (approveDest argSubcategory meta)
                   nm,
                 frames := meta.frames.getD 1,
                 size := meta.size.getD 64 } := by
  refine ⟨approveResult st now u argSubcategory meta img cat nm,
    cmd_approve_eq_of_resolved st now u argCategory argSubcategory argName
      entry meta img cat nm h1 h2 h3 h4 h5 h6 h7, ?_, ?_, ?_⟩
  · simp [approveResult, alookup_aerase]
  · simp [approveResult, alookup_ainsert, approvedMeta]
  · simp [approveResult, load_manifest, alookup_ainsert]

/-- The staging metadata record of the witness scenario. -/
def metaW : Meta :=
  { id := some "abc12345", created_at := some "2026-01-01T00:00:00",
    prompt := some "standing hero", full_prompt := some "p",
    god_palette := none, category := some "player", subcategory := none,
    name := some "idle", size := some 64, frames := some 1,
    status := some "staging", approved_at := none, rejected_at := none,
    rejection_reason := none }

/-- The witness staging directory: one sprite and its metadata. -/
def entryW : StagingEntry :=
  { sprite := some [9, 9], metadata := some metaW }

/-- The witness file system: one staging entry, nothing else. -/
def fsW : FS :=
  { staging := [("abc12345", entryW)], alternatives := [], used := [],
    manifest := none, style_guide := none }

/-- Witness for C2: approving the staged `player`/`idle` asset lands it at
`used/player/idle.png` under manifest key `player.idle`. -/
theorem C2_approve_transition_witness :
    (alookup "abc12345" fsW.staging = some entryW
     ∧ entryW.metadata = some metaW
     ∧ entryW.sprite = some [9, 9]
     ∧ pyOrStr none metaW.category = some "player"
     ∧ ("player" : String) ≠ ""
     ∧ pyOrStr none metaW.name = some "idle"
     ∧ ("idle" : String) ≠ "")
    ∧ (∃ st2,
        cmd_approve fsW "2026-01-02T00:00:00" "abc12345" none none none =
          some (0, st2)
        ∧ alookup "abc12345" st2.staging = none
        ∧ alookup ("player", approveDest none metaW, "idle") st2.used =
            some { image := [9, 9],
                   meta := approvedMeta metaW "2026-01-02T00:00:00" }
        ∧ alookup
            (assetKey_approve "player" (pyOrStr none metaW.subcategory)
              "idle")
            (load_manifest st2).assets =
            some { path := usedRelPath "player" (approveDest none metaW)
                     "idle",
                   frames := metaW.frames.getD 1,
                   size := metaW.size.getD 64 })
    ∧ usedRelPath "player" (approveDest none metaW) "idle" =
        "assets/sprites/used/player/idle.png"
    ∧ assetKey_approve "player" (pyOrStr none metaW.subcategory) "idle" =
        "player.idle" :=
  ⟨⟨by decide, rfl, rfl, rfl, by decide, rfl, by decide⟩,
   C2_approve_transition fsW "2026-01-02T00:00:00" "abc12345" none none
     none entryW metaW [9, 9] "player" "idle" (by decide) rfl rfl rfl
     (by decide) rfl (by decide),
   by decide, by decide⟩

/-! ### Claim C7 -/

/-- C7: approve fails with exit code 1 and a completely unchanged state
(staging, used tree and manifest included) when the staging directory is
missing, when its metadata record is missing, or when neither explicit
arguments nor stored metadata yield a truthy category and name. -/
theorem C7_approve_error_paths (st : FS) (now u : String)
    (argCategory argSubcategory argName : Option String) :
    (alookup u st.staging = none →
      cmd_approve st now u argCategory argSubcategory argName =
        some (1, st))
    ∧ (∀ entry, alookup u st.staging = some entry →
        entry.metadata = none →
        cmd_approve st now u argCategory argSubcategory argName =
          some (1, st))
    ∧ (∀ entry meta, alookup u st.staging = some entry →
        entry.metadata = some meta →
        (truthyStr (pyOrStr argCategory meta.category) = false
          ∨ truthyStr (pyOrStr argName meta.name) = false) →
        cmd_approve st now u argCategory argSubcategory argName =
          some (1, st)) := by
  refine ⟨?_, ?_, ?_⟩
  · intro h
    simp [cmd_approve, h]
  · intro entry h1 h2
    simp [cmd_approve, h1, h2]
  · intro entry meta h1 h2 h3
    rcases h3 with h3 | h3 <;> simp [cmd_approve, h1, h2, h3]

/-- Witness for C7: approving an unknown UUID on the witness state fails
with exit code 1 and the state unchanged. -/
theorem C7_approve_error_paths_witness :
    cmd_approve fsW "t" "deadbeef" none none none = some (1, fsW) :=
  (C7_approve_error_paths fsW "t" "deadbeef" none none none).1 (by decide)

/-! ### Claim C6 -/

/-- The state `cmd_reject` produces on its success path. -/
def rejectResult (st : FS) (now u : String) (reason : Option String)
    (entry : StagingEntry) (meta : Meta) : FS :=
  { st with
    staging := aerase u st.staging,
    alternatives := ainsert u
      { entry with metadata := some (rejectedMeta meta now reason) }
      st.alternatives }

/-- C6: rejecting an existing staging UUID with a reason string moves the
directory (its sprite included) into the alternatives area under the same
UUID, removes the staging entry, and rewrites its metadata with status
`rejected`, the reason verbatim, and the rejection timestamp; rejecting a
UUID with no staging directory fails with exit code 1 and an unchanged
state. -/
theorem C6_reject_transition (st : FS) (now u r : String)
    (entry : StagingEntry) (meta : Meta)
    (h1 : alookup u st.staging = some entry)
    (h2 : entry.metadata = some meta)
    (h3 : alookup u st.alternatives = none) :
    (∃ st2, cmd_reject st now u (some r) = some (0, st2)
      ∧ alookup u st2.staging = none
      ∧ alookup u st2.alternatives =
          some { entry with
            metadata := some (rejectedMeta meta now (some r)) })
    ∧ (∀ st3 : FS, alookup u st3.staging = none →
        cmd_reject st3 now u (some r) = some (1, st3)) := by
  constructor
  · refine ⟨rejectResult st now u (some r) entry meta, ?_, ?_, ?_⟩
    · simp [cmd_reject, h1, h2, h3, rejectResult, rejectedMeta]
    · simp [rejectResult, alookup_aerase]
    · simp [rejectResult, alookup_ainsert]
  · intro st3 h
    simp [cmd_reject, h]

/-- Witness for C6: rejecting the witness staging entry with reason
"bad proportions". -/
theorem C6_reject_transition_witness :
    (alookup "abc12345" fsW.staging = some entryW
     ∧ entryW.metadata = some metaW
     ∧ alookup "abc12345" fsW.alternatives = none)
    ∧ ((∃ st2, cmd_reject fsW "2026-01-03T00:00:00" "abc12345"
          (some "bad proportions") = some (0, st2)
        ∧ alookup "abc12345" st2.staging = none
        ∧ alookup "abc12345" st2.alternatives =
            some { entryW with
              metadata := some (rejectedMeta metaW "2026-01-03T00:00:00"
                (some "bad proportions")) })
      ∧ (∀ st3 : FS, alookup "abc12345" st3.staging = none →
          cmd_reject st3 "2026-01-03T00:00:00" "abc12345"
            (some "bad proportions") = some (1, st3))) :=
  ⟨⟨by decide, rfl, rfl⟩,
   C6_reject_transition fsW "2026-01-03T00:00:00" "abc12345"
     "bad proportions" entryW metaW (by decide) rfl rfl⟩

/-! ### Claim C8 -/

/-- A file system with no style guide and no manifest files. -/
def fsEmpty : FS :=
  { staging := [], alternatives := [], used := [], manifest := none,
    style_guide := none }

/-- A pre-existing style guide with a custom aesthetic. -/
def sgExisting : StyleGuide :=
  { base_style := some "my style", aesthetic := some "my aesthetic",
    palettes := none }

/-- A file system that already has a persisted style guide. -/
def fsWithGuide : FS :=
  { staging := [], alternatives := [], used := [],
    manifest := some { version := 1, assets := [] },
    style_guide := some sgExisting }

/-- C8: `cmd_init` never overwrites an existing style guide, but the
document it seeds when none exists carries only `base_style` and the
`GOD_PALETTES` table — the `aesthetic` key is absent, although the claim
(and `load_style_guide`'s own missing-file default, main.py lines
149-153) expects all three fields. -/
theorem C8_init_seeds_without_aesthetic :
    (cmd_init fsEmpty).2.style_guide =
      some { base_style := some DEFAULT_STYLE_PROMPT, aesthetic := none,
             palettes := some GOD_PALETTES }
    ∧ (cmd_init fsWithGuide).2.style_guide = some sgExisting
    ∧ (cmd_init fsEmpty).2.manifest = some { version := 1, assets := [] } :=
  ⟨rfl, rfl, rfl⟩

/-! ### Claim C10 -/

theorem filterMap_ite {α β : Type} (q : α → Prop) [DecidablePred q]
    (f : α → β) (l : List α) :
    l.filterMap (fun x => if q x then some (f x) else none) =
      (l.filter (fun x => decide (q x))).map f := by
  induction l with
  | nil => rfl
  | cons a l ih =>
    by_cases h : q a <;>
      simp [List.filterMap_cons, List.filter_cons, h, ih]

/-- C10: for every batch manifest file that exists and parses,
`cmd_batch` returns exit code 0 whatever the per-item generation results
are; each failing item contributes exactly one warning line (processing
continues through the whole item list), and only a missing manifest file
yields exit code 1. -/
theorem C10_batch_always_succeeds (bm : BatchManifest)
    (gen : Nat → BatchItem → Nat) :
    (cmd_batch (some bm) gen).1 = 0
    ∧ (cmd_batch (some bm) gen).2 =
        (((bm.items.getD []).enumFrom 1).filter
            (fun p => decide (gen p.1 p.2 ≠ 0))).map
          (fun p => "Warning: Failed to generate " ++
            (match p.2.name with
             | some s => s
             | none => "None"))
    ∧ cmd_batch none gen = (1, []) := by
  refine ⟨rfl, ?_, rfl⟩
  simp only [cmd_batch]
  exact filterMap_ite _ _ _

end Spritegen
